import Mathlib

/-!
Shallow embedding of `TokenLauncherWithBuyTool.execute` from
`src/bonk_mcp/tools/token_launcher.py`.

The Python coroutine reads raw arguments from a dict, coerces the two amount
fields with `float(arguments.get(k, 0) or 0)`, validates the four required
string fields, resolves the module-level `KEYPAIR` setting, and then calls the
collaborators `prepare_ipfs`, `create_token`, `send_and_confirm_transaction`,
`derive_pdas` and `create_buy_tx` in sequence, assembling a list of response
lines and returning a one-element list of `TextContent`.

The embedding models:
  * raw argument values for the amount fields as `NumArg` (absent key, present
    but falsy value, truthy value that `float` converts to a rational, or a
    truthy value on which `float` raises with a message);
  * optional string arguments as `Option String`, with Python falsiness of a
    string being `none` or the empty string;
  * each collaborator call site as a field of `Env` giving that call's
    behaviour (`Except String _`: raise with a message, or return a value);
  * the fresh mint keypair and the decoded payer keypair through the
    `mintPubkey` / `payerPubkey` / `keypairDecode` fields of `Env`;
  * the returned value as `Except String (List ResultItem)`: `.error m` is an
    exception propagating out of the coroutine, `.ok items` a normal return;
  * alongside the result, the ordered list of collaborator invocations made
    during the run (`List Call`), so that claims about which collaborators are
    invoked, how often and in which order can be stated.

Python floats are modelled as rationals; the f-string rendering of the spend
amount is modelled by `toString` on the rational.
-/

namespace BonkMcp

/-- A raw value supplied (or not) for one of the numeric argument keys, as seen
by `float(arguments.get(key, 0) or 0)`: the key can be absent, hold a falsy
value, hold a truthy value that converts to a number, or hold a truthy value on
which `float` raises an exception carrying a message. -/
inductive NumArg where
  | absent
  | falsy
  | num (q : ℚ)
  | malformed (msg : String)
deriving DecidableEq, Repr

/-- `float(x or 0)` for a raw value `x`: absent and falsy inputs become exactly
`0`; a truthy convertible value becomes its numeric value; a truthy
non-convertible value raises. -/
def pyFloat : NumArg → Except String ℚ
  | .absent => .ok 0
  | .falsy => .ok 0
  | .num q => .ok q
  | .malformed msg => .error msg

/-- Python truthiness test `not s` for an optional string argument: true when
the key is absent (`None`) or the string is empty. A whitespace-only string is
truthy in Python, hence not falsy here. -/
def pyFalsyStr : Option String → Bool
  | none => true
  | some s => s == ""

/-- The raw `arguments` dict, restricted to the keys the tool reads. -/
structure Arguments where
  name : Option String
  symbol : Option String
  description : Option String
  twitter : Option String
  telegram : Option String
  website : Option String
  image_url : Option String
  initial_buy_amount : NumArg
  minimum_token_out : NumArg
deriving DecidableEq, Repr

/-- One collaborator invocation, recording the data the tool passes to it. -/
inductive Call where
  | prepare_ipfs (name symbol description twitter telegram website image_url : String)
  | create_token (name symbol uri : String)
  | send_and_confirm_create
  | derive_pdas
  | create_buy_tx (amount_in minimum_amount_out : ℚ)
  | send_and_confirm_buy
deriving DecidableEq, Repr

instance {ε α : Type} [DecidableEq ε] [DecidableEq α] : DecidableEq (Except ε α) :=
  fun a b =>
    match a, b with
    | .error x, .error y =>
        if h : x = y then .isTrue (congrArg Except.error h)
        else .isFalse fun c => h (Except.error.inj c)
    | .error _, .ok _ => .isFalse fun c => Except.noConfusion c
    | .ok _, .error _ => .isFalse fun c => Except.noConfusion c
    | .ok x, .ok y =>
        if h : x = y then .isTrue (congrArg Except.ok h)
        else .isFalse fun c => h (Except.ok.inj c)

/-- Behaviour of the environment for one run: the `KEYPAIR` setting, the
outcome of decoding it, the generated mint pubkey, the payer pubkey, and the
outcome of each collaborator call site.  `Except.error m` means the call raises
an exception whose `str` is `m`.  For `prepare_ipfs` the returned URI uses `""`
for a falsy result; for `derive_pdas` the `.ok` value is the string read back
at key `pool_state` (a missing key, i.e. a `KeyError`, is an `.error`). -/
structure Env where
  keypair : Option String
  keypairDecode : Except String Unit
  mintPubkey : String
  payerPubkey : String
  prepare_ipfs : Except String String
  create_token : Except String Unit
  send_and_confirm_create : Except String Bool
  derive_pdas : Except String String
  create_buy_tx : Except String Unit
  send_and_confirm_buy : Except String Bool
deriving DecidableEq, Repr

/-- An element of the returned list: `TextContent`, `ImageContent` or
`EmbeddedResource` from `mcp.types`.  The tool only ever constructs
`TextContent`. -/
inductive ResultItem where
  | textContent (text : String)
  | imageContent (data : String)
  | embeddedResource (data : String)
deriving DecidableEq, Repr

/-- Error text returned when a required field is missing (lines 123-131). -/
def validationErrorText : String :=
  "Error: Missing required parameters. Please provide name, symbol, description, and image_url."

/-- Error text returned when `KEYPAIR` is falsy (lines 135-143). -/
def noKeypairText : String :=
  "Error: No keypair configured in settings. Please set the KEYPAIR environment variable."

/-- Error text when decoding `KEYPAIR` raises (lines 150-155). -/
def invalidKeypairText (m : String) : String :=
  "Error: Invalid keypair format. " ++ m

/-- Error text when `prepare_ipfs` raises (lines 172-177). -/
def ipfsErrorText (m : String) : String :=
  "Error: Failed to prepare IPFS metadata. " ++ m

/-- Error text when `prepare_ipfs` returns a falsy URI (lines 179-184). -/
def ipfsEmptyText : String :=
  "Error: Failed to prepare IPFS metadata. Please check your image URL and try again."

/-- Error text when `create_token` or the creation submission raises
(lines 200-205). -/
def launchErrorText (m : String) : String :=
  "Error launching token: " ++ m

/-- Error text when the creation submission reports non-success
(lines 207-212). -/
def creationFailedText : String :=
  "Error: Token creation failed."

/-- The eight launch-detail lines assembled on creation success
(lines 216-225), in source order. -/
def creationLines (name symbol mint poolState uri image_url payer : String) :
    List String :=
  [ "Successfully launched token: " ++ name ++ " (" ++ symbol ++ ")",
    "",
    "Mint Address: " ++ mint,
    "Pool State: " ++ poolState,
    "Token URI: " ++ uri,
    "Image URL: " ++ image_url,
    "",
    "Funded from account: " ++ payer ]

/-- Buy-status line on a successful buy (line 242). -/
def buySuccessText (amt : ℚ) : String :=
  "Initial buy succeeded: spent " ++ toString amt ++ " SOL"

/-- Buy-status line when the buy submission completes but reports non-success
(line 247). -/
def buyFailedPlainText : String :=
  "Token launched, but initial buy failed."

/-- Buy-status line when the buy construction or submission raises
(line 252). -/
def buyFailedExcText (m : String) : String :=
  "Token launched, but initial buy failed: " ++ m

/-- The `prepare_ipfs` invocation, with the keyword arguments passed at
lines 162-170 (`twitter`, `telegram` and `website` were read with default
`""`). -/
def ipfsCallOf (a : Arguments) : Call :=
  .prepare_ipfs (a.name.getD "") (a.symbol.getD "") (a.description.getD "")
    (a.twitter.getD "") (a.telegram.getD "") (a.website.getD "") (a.image_url.getD "")

/-- Step 2 of the tool (lines 227-261): starting from the assembled
`response_lines` and the trace `t` so far, optionally perform the initial buy
and return the joined response.  The `try` block spans both `create_buy_tx`
and the buy submission, so an exception from either appends the
`buyFailedExcText` line; a falsy `buy_success` appends `buyFailedPlainText`. -/
def phase2Part (e : Env) (amt minOut : ℚ) (responseLines : List String)
    (t : List Call) : Except String (List ResultItem) × List Call :=
  if amt > 0 then
    match e.create_buy_tx with
    | .error m =>
        (.ok [.textContent (String.intercalate "\n"
            (responseLines ++ ["", buyFailedExcText m]))],
          t ++ [.create_buy_tx amt minOut])
    | .ok _ =>
        match e.send_and_confirm_buy with
        | .error m =>
            (.ok [.textContent (String.intercalate "\n"
                (responseLines ++ ["", buyFailedExcText m]))],
              t ++ [.create_buy_tx amt minOut, .send_and_confirm_buy])
        | .ok buySuccess =>
            if buySuccess then
              (.ok [.textContent (String.intercalate "\n"
                  (responseLines ++ ["", buySuccessText amt]))],
                t ++ [.create_buy_tx amt minOut, .send_and_confirm_buy])
            else
              (.ok [.textContent (String.intercalate "\n"
                  (responseLines ++ ["", buyFailedPlainText]))],
                t ++ [.create_buy_tx amt minOut, .send_and_confirm_buy])
  else
    (.ok [.textContent (String.intercalate "\n" responseLines)], t)

/-- Step 1 of the tool from the `create_token` call onward (lines 187-225):
build and submit the creation transaction inside one `try` block, return an
error item on exception or on falsy `create_success`; on success call
`derive_pdas` — outside any `try`, so its exception propagates — assemble the
launch-detail lines and continue with `phase2Part`. -/
def phase1Part (a : Arguments) (e : Env) (amt minOut : ℚ) (uri : String) :
    Except String (List ResultItem) × List Call :=
  match e.create_token with
  | .error m =>
      (.ok [.textContent (launchErrorText m)],
        [ipfsCallOf a, .create_token (a.name.getD "") (a.symbol.getD "") uri])
  | .ok _ =>
      match e.send_and_confirm_create with
      | .error m =>
          (.ok [.textContent (launchErrorText m)],
            [ipfsCallOf a, .create_token (a.name.getD "") (a.symbol.getD "") uri,
              .send_and_confirm_create])
      | .ok createSuccess =>
          if !createSuccess then
            (.ok [.textContent creationFailedText],
              [ipfsCallOf a, .create_token (a.name.getD "") (a.symbol.getD "") uri,
                .send_and_confirm_create])
          else
            match e.derive_pdas with
            | .error m =>
                (.error m,
                  [ipfsCallOf a, .create_token (a.name.getD "") (a.symbol.getD "") uri,
                    .send_and_confirm_create, .derive_pdas])
            | .ok poolState =>
                phase2Part e amt minOut
                  (creationLines (a.name.getD "") (a.symbol.getD "") e.mintPubkey
                    poolState uri (a.image_url.getD "") e.payerPubkey)
                  [ipfsCallOf a, .create_token (a.name.getD "") (a.symbol.getD "") uri,
                    .send_and_confirm_create, .derive_pdas]

/-- `TokenLauncherWithBuyTool.execute` (lines 108-261): coerce the two amount
fields (uncaught: a `float` exception propagates), validate the four required
fields, check and decode `KEYPAIR`, prepare IPFS metadata, then run Step 1 and
Step 2.  Returns the result together with the ordered collaborator-call
trace. -/
def execute (a : Arguments) (e : Env) :
    Except String (List ResultItem) × List Call :=
  match pyFloat a.initial_buy_amount with
  | .error m => (.error m, [])
  | .ok amt =>
      match pyFloat a.minimum_token_out with
      | .error m => (.error m, [])
      | .ok minOut =>
          if pyFalsyStr a.name || pyFalsyStr a.symbol || pyFalsyStr a.description
              || pyFalsyStr a.image_url then
            (.ok [.textContent validationErrorText], [])
          else if pyFalsyStr e.keypair then
            (.ok [.textContent noKeypairText], [])
          else
            match e.keypairDecode with
            | .error m => (.ok [.textContent (invalidKeypairText m)], [])
            | .ok _ =>
                match e.prepare_ipfs with
                | .error m => (.ok [.textContent (ipfsErrorText m)], [ipfsCallOf a])
                | .ok uri =>
                    if uri == "" then
                      (.ok [.textContent ipfsEmptyText], [ipfsCallOf a])
                    else
                      phase1Part a e amt minOut uri

/-- A call belonging to Phase 2 (the buy). -/
def isBuyCall : Call → Bool
  | .create_buy_tx _ _ => true
  | .send_and_confirm_buy => true
  | _ => false

/-- The `create_token` collaborator call. -/
def isCreateTokenCall : Call → Bool
  | .create_token _ _ _ => true
  | _ => false

/-- The texts of the seven error-return paths of `execute` (each returned as a
single item, before any launch-detail line is assembled). -/
def isErrorText (t : String) : Prop :=
  t = validationErrorText ∨ t = noKeypairText ∨
  (∃ m, t = invalidKeypairText m) ∨ (∃ m, t = ipfsErrorText m) ∨
  t = ipfsEmptyText ∨ (∃ m, t = launchErrorText m) ∨ t = creationFailedText

/-- If a run of `execute` ever invoked the `create_token` collaborator, then
both amount coercions succeeded, all the early checks passed, `prepare_ipfs`
returned a truthy URI, and the run equals `phase1Part` at those values. -/
theorem reach_phase1 (a : Arguments) (e : Env)
    (h : ((execute a e).2.any isCreateTokenCall) = true) :
    ∃ amt minOut uri, pyFloat a.initial_buy_amount = .ok amt ∧
      pyFloat a.minimum_token_out = .ok minOut ∧
      e.prepare_ipfs = .ok uri ∧ (uri == "") = false ∧
      execute a e = phase1Part a e amt minOut uri := by
  unfold execute at h
  split at h
  case _ m heq => simp at h
  case _ amt heq =>
    split at h
    case _ m heq2 => simp at h
    case _ minOut heq2 =>
      split at h
      case _ hval => simp at h
      case _ hval =>
        split at h
        case _ hkp => simp at h
        case _ hkp =>
          split at h
          case _ m hdec => simp at h
          case _ u hdec =>
            split at h
            case _ m hipfs => simp [isCreateTokenCall, ipfsCallOf] at h
            case _ uri hipfs =>
              split at h
              case _ hne => simp [isCreateTokenCall, ipfsCallOf] at h
              case _ hne =>
                refine ⟨amt, minOut, uri, heq, heq2, hipfs, ?_, ?_⟩
                · simpa using hne
                · simp [execute, heq, heq2, hval, hkp, hdec, hipfs]
                  intro hcon
                  exact absurd hcon (by simpa using hne)

/-- Every run of `execute` either propagates an exception, or returns exactly
one text item whose text is one of the early error texts or the joined
launch-detail lines followed by an optional two-line buy-status tail; a
buy-status tail occurs only when the coerced `initial_buy_amount` is
positive. -/
theorem result_classified (a : Arguments) (e : Env) :
    (∃ m, (execute a e).1 = .error m ∧
      (pyFloat a.initial_buy_amount = .error m ∨
        pyFloat a.minimum_token_out = .error m ∨ e.derive_pdas = .error m)) ∨
    ∃ t, (execute a e).1 = .ok [.textContent t] ∧
      (isErrorText t ∨
        ∃ uri p tail, e.prepare_ipfs = .ok uri ∧ e.derive_pdas = .ok p ∧
          t = String.intercalate "\n"
              (creationLines (a.name.getD "") (a.symbol.getD "") e.mintPubkey p uri
                (a.image_url.getD "") e.payerPubkey ++ tail) ∧
          (tail = [] ∨
            ∃ amt, pyFloat a.initial_buy_amount = .ok amt ∧ 0 < amt ∧
              (tail = ["", buySuccessText amt] ∨ tail = ["", buyFailedPlainText] ∨
                ∃ m, tail = ["", buyFailedExcText m]))) := by
  unfold execute
  split
  case _ m heq => exact Or.inl ⟨m, rfl, Or.inl heq⟩
  case _ amt heq =>
    split
    case _ m heq2 => exact Or.inl ⟨m, rfl, Or.inr (Or.inl heq2)⟩
    case _ minOut heq2 =>
      split
      case _ hval => exact Or.inr ⟨_, rfl, Or.inl (Or.inl rfl)⟩
      case _ hval =>
        split
        case _ hkp => exact Or.inr ⟨_, rfl, Or.inl (Or.inr (Or.inl rfl))⟩
        case _ hkp =>
          split
          case _ m hdec =>
            exact Or.inr ⟨_, rfl, Or.inl (Or.inr (Or.inr (Or.inl ⟨m, rfl⟩)))⟩
          case _ u hdec =>
            split
            case _ m hipfs =>
              exact Or.inr ⟨_, rfl,
                Or.inl (Or.inr (Or.inr (Or.inr (Or.inl ⟨m, rfl⟩))))⟩
            case _ uri hipfs =>
              split
              case _ hne =>
                exact Or.inr ⟨_, rfl,
                  Or.inl (Or.inr (Or.inr (Or.inr (Or.inr (Or.inl rfl)))))⟩
              case _ hne =>
                unfold phase1Part
                split
                case _ m hct =>
                  exact Or.inr ⟨_, rfl,
                    Or.inl (Or.inr (Or.inr (Or.inr (Or.inr (Or.inr
                      (Or.inl ⟨m, rfl⟩))))))⟩
                case _ hct =>
                  split
                  case _ m hcs =>
                    exact Or.inr ⟨_, rfl,
                      Or.inl (Or.inr (Or.inr (Or.inr (Or.inr (Or.inr
                        (Or.inl ⟨m, rfl⟩))))))⟩
                  case _ cs hcs =>
                    split
                    case _ hcsf =>
                      exact Or.inr ⟨_, rfl,
                        Or.inl (Or.inr (Or.inr (Or.inr (Or.inr (Or.inr
                          (Or.inr rfl))))))⟩
                    case _ hcsf =>
                      split
                      case _ m hpd => exact Or.inl ⟨m, rfl, Or.inr (Or.inr hpd)⟩
                      case _ p hpd =>
                        unfold phase2Part
                        split
                        case _ hgt =>
                          split
                          case _ m hbt =>
                            exact Or.inr ⟨_, rfl, Or.inr ⟨uri, p, _, hipfs, hpd,
                              rfl, Or.inr ⟨amt, heq, hgt,
                                Or.inr (Or.inr ⟨m, rfl⟩)⟩⟩⟩
                          case _ u2 hbt =>
                            split
                            case _ m hbs =>
                              exact Or.inr ⟨_, rfl, Or.inr ⟨uri, p, _, hipfs, hpd,
                                rfl, Or.inr ⟨amt, heq, hgt,
                                  Or.inr (Or.inr ⟨m, rfl⟩)⟩⟩⟩
                            case _ bs hbs =>
                              split
                              case _ hbst =>
                                exact Or.inr ⟨_, rfl, Or.inr ⟨uri, p, _, hipfs, hpd,
                                  rfl, Or.inr ⟨amt, heq, hgt, Or.inl rfl⟩⟩⟩
                              case _ hbst =>
                                exact Or.inr ⟨_, rfl, Or.inr ⟨uri, p, _, hipfs, hpd,
                                  rfl, Or.inr ⟨amt, heq, hgt,
                                    Or.inr (Or.inl rfl)⟩⟩⟩
                        case _ hgt =>
                          refine Or.inr ⟨_, rfl, Or.inr ⟨uri, p, [], hipfs, hpd,
                            ?_, Or.inl rfl⟩⟩
                          simp

/-- Phase 1 failure behaviours: `create_token` raises, or the creation
submission raises, or the submission completes reporting non-success. -/
def phase1Fails (e : Env) : Prop :=
  (∃ m, e.create_token = .error m) ∨
  (e.create_token = .ok () ∧ ∃ m, e.send_and_confirm_create = .error m) ∨
  (e.create_token = .ok () ∧ e.send_and_confirm_create = .ok false)

/-- Phase 2 failure behaviours: `create_buy_tx` raises, or the buy submission
raises, or it completes reporting non-success. -/
def buyFails (e : Env) : Prop :=
  (∃ m, e.create_buy_tx = .error m) ∨
  (e.create_buy_tx = .ok () ∧ ∃ m, e.send_and_confirm_buy = .error m) ∨
  (e.create_buy_tx = .ok () ∧ e.send_and_confirm_buy = .ok false)

/-- The tail appended to the launch-detail lines: empty when no buy was
requested, otherwise a blank line followed by the buy-status line determined by
the buy collaborators, with a successful buy recording the requested spend
amount. -/
def buyStatusSection (amt : ℚ) (e : Env) : List String :=
  if amt > 0 then
    match e.create_buy_tx with
    | .error m => ["", buyFailedExcText m]
    | .ok _ =>
        match e.send_and_confirm_buy with
        | .error m => ["", buyFailedExcText m]
        | .ok b => if b then ["", buySuccessText amt] else ["", buyFailedPlainText]
  else []

/-- Inversion on the trace: a `create_buy_tx` invocation carries exactly the
coerced amounts and happens only when the coerced `initial_buy_amount` is
positive, and a buy submission happens only after `create_buy_tx` returned
without raising. -/
theorem buy_call_inversion (a : Arguments) (e : Env) :
    (∀ x y, Call.create_buy_tx x y ∈ (execute a e).2 →
      0 < x ∧ pyFloat a.initial_buy_amount = .ok x ∧
        pyFloat a.minimum_token_out = .ok y) ∧
    (Call.send_and_confirm_buy ∈ (execute a e).2 →
      ∃ x, 0 < x ∧ pyFloat a.initial_buy_amount = .ok x ∧
        e.create_buy_tx = .ok ()) := by
  unfold execute
  split
  case _ m heq => simp
  case _ amt heq =>
    split
    case _ m heq2 => simp
    case _ minOut heq2 =>
      split
      case _ hval => simp
      case _ hval =>
        split
        case _ hkp => simp
        case _ hkp =>
          split
          case _ m hdec => simp
          case _ u hdec =>
            split
            case _ m hipfs => simp [ipfsCallOf]
            case _ uri hipfs =>
              split
              case _ hne => simp [ipfsCallOf]
              case _ hne =>
                unfold phase1Part
                split
                case _ m hct => simp [ipfsCallOf]
                case _ hct =>
                  split
                  case _ m hcs => simp [ipfsCallOf]
                  case _ cs hcs =>
                    split
                    case _ hcsf => simp [ipfsCallOf]
                    case _ hcsf =>
                      split
                      case _ m hpd => simp [ipfsCallOf]
                      case _ p hpd =>
                        unfold phase2Part
                        split
                        case _ hgt =>
                          split
                          case _ m hbt =>
                            constructor
                            · intro x y hm
                              simp [ipfsCallOf] at hm
                              obtain ⟨hx, hy⟩ := hm
                              subst hx; subst hy
                              exact ⟨hgt, heq, heq2⟩
                            · intro hm
                              simp [ipfsCallOf] at hm
                          case _ u2 hbt =>
                            have hbuy : ∀ (t : List Call),
                                t = [ipfsCallOf a,
                                    .create_token (a.name.getD "") (a.symbol.getD "") uri,
                                    .send_and_confirm_create, .derive_pdas] ++
                                  [.create_buy_tx amt minOut, .send_and_confirm_buy] →
                                (∀ x y, Call.create_buy_tx x y ∈ t →
                                  0 < x ∧ pyFloat a.initial_buy_amount = .ok x ∧
                                    pyFloat a.minimum_token_out = .ok y) ∧
                                (Call.send_and_confirm_buy ∈ t →
                                  ∃ x, 0 < x ∧ pyFloat a.initial_buy_amount = .ok x ∧
                                    e.create_buy_tx = .ok ()) := by
                              intro t ht
                              subst ht
                              constructor
                              · intro x y hm
                                simp [ipfsCallOf] at hm
                                obtain ⟨hx, hy⟩ := hm
                                subst hx; subst hy
                                exact ⟨hgt, heq, heq2⟩
                              · intro _
                                refine ⟨amt, hgt, heq, ?_⟩
                                cases hbt2 : e.create_buy_tx with
                                | error m => rw [hbt2] at hbt; exact absurd hbt (by simp)
                                | ok v => cases v; rfl
                            split
                            case _ m hbs => exact hbuy _ rfl
                            case _ bs hbs =>
                              split
                              case _ hbst => exact hbuy _ rfl
                              case _ hbst => exact hbuy _ rfl
                        case _ hgt => simp [ipfsCallOf]

/-- When creation is confirmed and the dependent addresses derive, Step 1
continues into Step 2 with the launch-detail lines and the four calls made so
far. -/
theorem phase1Part_success (a : Arguments) (e : Env) (amt minOut : ℚ)
    (uri p : String) (hct : e.create_token = .ok ())
    (hcs : e.send_and_confirm_create = .ok true) (hpd : e.derive_pdas = .ok p) :
    phase1Part a e amt minOut uri =
      phase2Part e amt minOut
        (creationLines (a.name.getD "") (a.symbol.getD "") e.mintPubkey p uri
          (a.image_url.getD "") e.payerPubkey)
        [ipfsCallOf a, .create_token (a.name.getD "") (a.symbol.getD "") uri,
          .send_and_confirm_create, .derive_pdas] := by
  simp [phase1Part, hct, hcs, hpd]

/-- The result of Step 2 is always the single text item joining the given
lines with the buy-status section appended. -/
theorem phase2Part_fst (e : Env) (amt minOut : ℚ) (lines : List String)
    (t : List Call) :
    (phase2Part e amt minOut lines t).1 =
      .ok [.textContent (String.intercalate "\n"
        (lines ++ buyStatusSection amt e))] := by
  unfold phase2Part buyStatusSection
  split
  case _ hgt =>
    cases e.create_buy_tx with
    | error m => rfl
    | ok u =>
        cases e.send_and_confirm_buy with
        | error m => rfl
        | ok b => cases b <;> simp
  case _ hgt => simp

/-- With a positive amount, Step 2 appends exactly the buy invocation,
followed by the buy submission unless `create_buy_tx` raised. -/
theorem phase2Part_snd_pos (e : Env) (amt minOut : ℚ) (lines : List String)
    (t : List Call) (hpos : 0 < amt) :
    (phase2Part e amt minOut lines t).2 = t ++ [.create_buy_tx amt minOut] ∨
    (phase2Part e amt minOut lines t).2 =
      t ++ [.create_buy_tx amt minOut, .send_and_confirm_buy] := by
  unfold phase2Part
  rw [if_pos hpos]
  cases e.create_buy_tx with
  | error m => exact Or.inl rfl
  | ok u =>
      cases e.send_and_confirm_buy with
      | error m => exact Or.inr rfl
      | ok b => cases b <;> exact Or.inr (by simp)

/-- C1 (amended): provided the two amount coercions succeed and `derive_pdas`
does not raise, `execute` catches every collaborator exception (metadata
preparation, creation build and submission, buy build and submission) and
always returns a single text item whose content encodes success or failure.
As literally stated the claim fails: an exception raised by the numeric
coercion of the amounts, or by `derive_pdas` after Phase 1 success, is not
caught and propagates to the caller. -/
theorem collaborator_exceptions_contained (a : Arguments) (e : Env)
    (h1 : ∃ q, pyFloat a.initial_buy_amount = .ok q)
    (h2 : ∃ q, pyFloat a.minimum_token_out = .ok q)
    (h3 : ∃ p, e.derive_pdas = .ok p) :
    ∃ t, (execute a e).1 = .ok [.textContent t] := by
  rcases result_classified a e with ⟨m, _, hsrc⟩ | ⟨t, ht, _⟩
  · obtain ⟨q1, hq1⟩ := h1
    obtain ⟨q2, hq2⟩ := h2
    obtain ⟨p, hp⟩ := h3
    rcases hsrc with h | h | h
    · rw [hq1] at h; exact absurd h (by simp)
    · rw [hq2] at h; exact absurd h (by simp)
    · rw [hp] at h; exact absurd h (by simp)
  · exact ⟨t, ht⟩

/-- Witness for C1: a run whose metadata collaborator raises still returns a
single text item. -/
theorem collaborator_exceptions_contained_witness :
    ∃ t, (execute
      ⟨some "Foo", some "FOO", some "desc", none, none, none, some "img",
        .num 1, .absent⟩
      ⟨some "KP", .ok (), "Mint", "Payer", .error "ipfs down", .ok (), .ok true,
        .ok "Pool", .ok (), .ok true⟩).1 = .ok [.textContent t] :=
  collaborator_exceptions_contained _ _ ⟨1, rfl⟩ ⟨0, rfl⟩ ⟨"Pool", rfl⟩

/-- C1 counterexample: with a truthy, non-convertible `initial_buy_amount` the
`float` coercion exception propagates out of `execute` instead of being
converted into a text item. -/
theorem coercion_exception_propagates :
    (execute
      ⟨some "Foo", some "FOO", some "desc", none, none, none, some "img",
        .malformed "could not convert string to float: abc", .absent⟩
      ⟨some "KP", .ok (), "Mint", "Payer", .ok "uri", .ok (), .ok true,
        .ok "Pool", .ok (), .ok true⟩).1 =
      .error "could not convert string to float: abc" := rfl

/-- C2 (amended): for every input whose amount fields coerce without raising,
if any of the required fields name, symbol, description, image_url is missing
or empty, `execute` returns exactly one error-text item and invokes no
collaborator.  As literally stated the claim fails: when a required field is
missing and an amount field is additionally non-convertible, the coercion
exception propagates instead of an error-text item being returned. -/
theorem missing_required_fields_single_error (a : Arguments) (e : Env)
    (h1 : ∃ q, pyFloat a.initial_buy_amount = .ok q)
    (h2 : ∃ q, pyFloat a.minimum_token_out = .ok q)
    (hmiss : (pyFalsyStr a.name || pyFalsyStr a.symbol || pyFalsyStr a.description
      || pyFalsyStr a.image_url) = true) :
    execute a e = (.ok [.textContent validationErrorText], []) := by
  obtain ⟨q1, hq1⟩ := h1
  obtain ⟨q2, hq2⟩ := h2
  simp [execute, hq1, hq2, hmiss]

/-- Witness for C2: an input with an empty symbol yields the single validation
error item and an empty collaborator trace. -/
theorem missing_required_fields_single_error_witness :
    execute
      ⟨some "Foo", some "", some "desc", none, none, none, some "img",
        .absent, .absent⟩
      ⟨some "KP", .ok (), "Mint", "Payer", .ok "uri", .ok (), .ok true,
        .ok "Pool", .ok (), .ok true⟩ =
      (.ok [.textContent validationErrorText], []) :=
  missing_required_fields_single_error _ _ ⟨0, rfl⟩ ⟨0, rfl⟩ rfl

/-- C2 counterexample: the name is missing, yet no error-text item is
returned — the `float` coercion of the malformed `initial_buy_amount` runs
first and its exception propagates. -/
theorem missing_field_with_malformed_amount_raises :
    (execute
      ⟨none, some "FOO", some "desc", none, none, none, some "img",
        .malformed "could not convert string to float: oops", .absent⟩
      ⟨some "KP", .ok (), "Mint", "Payer", .ok "uri", .ok (), .ok true,
        .ok "Pool", .ok (), .ok true⟩).1 =
      .error "could not convert string to float: oops" := rfl

/-- C9: for every otherwise-valid input (amounts coerce, the four required
fields are present and non-empty) with a falsy `KEYPAIR` configuration value,
`execute` returns the single no-keypair error item and makes zero collaborator
calls — the check happens before metadata preparation and before any
transaction building. -/
theorem no_keypair_early_error (a : Arguments) (e : Env)
    (h1 : ∃ q, pyFloat a.initial_buy_amount = .ok q)
    (h2 : ∃ q, pyFloat a.minimum_token_out = .ok q)
    (hval : (pyFalsyStr a.name || pyFalsyStr a.symbol || pyFalsyStr a.description
      || pyFalsyStr a.image_url) = false)
    (hkp : pyFalsyStr e.keypair = true) :
    execute a e = (.ok [.textContent noKeypairText], []) := by
  obtain ⟨q1, hq1⟩ := h1
  obtain ⟨q2, hq2⟩ := h2
  simp [execute, hq1, hq2, hval, hkp]

/-- Witness for C9: valid fields with an unset `KEYPAIR` give the no-keypair
error and an empty collaborator trace. -/
theorem no_keypair_early_error_witness :
    execute
      ⟨some "Tok", some "TOK", some "dsc", none, none, none, some "pic",
        .num 2, .num 3⟩
      ⟨none, .ok (), "Mint", "Payer", .ok "uri", .ok (), .ok true,
        .ok "Pool", .ok (), .ok true⟩ =
      (.ok [.textContent noKeypairText], []) :=
  no_keypair_early_error _ _ ⟨2, rfl⟩ ⟨3, rfl⟩ rfl rfl

/-- C10: on every return path of `execute` — validation failure, missing or
invalid keypair, metadata failure, creation failure, and full or partial
success — the returned list contains exactly one item, and it is a text
item. -/
theorem returns_single_text_item (a : Arguments) (e : Env)
    (items : List ResultItem) (h : (execute a e).1 = .ok items) :
    ∃ t, items = [.textContent t] := by
  rcases result_classified a e with ⟨m, hm, _⟩ | ⟨t, ht, _⟩
  · rw [h] at hm
    exact absurd hm (by simp)
  · rw [h] at ht
    exact ⟨t, Except.ok.inj ht⟩

/-- Witness for C10: a validation-failure return consists of exactly one text
item. -/
theorem returns_single_text_item_witness :
    ∃ t, [ResultItem.textContent validationErrorText] =
      [ResultItem.textContent t] :=
  returns_single_text_item
    ⟨none, none, none, none, none, none, none, .absent, .absent⟩
    ⟨none, .ok (), "", "", .ok "", .ok (), .ok true, .ok "", .ok (), .ok true⟩
    [.textContent validationErrorText] rfl

/-- C3: for every input and collaborator behaviour, if Phase 1 was invoked and
fails — `create_token` or the creation submission raises, or the submission
completes reporting non-success — then the buy collaborators are never
invoked, regardless of the requested `initial_buy_amount`, and the result is a
single error item (the launch-error text or the creation-failed text), with no
success-detail lines. -/
theorem phase1_failure_no_buy (a : Arguments) (e : Env)
    (hreach : ((execute a e).2.any isCreateTokenCall) = true)
    (hfail : phase1Fails e) :
    ((execute a e).2.all fun c => !isBuyCall c) = true ∧
    ∃ t, (execute a e).1 = .ok [.textContent t] ∧
      ((∃ m, t = launchErrorText m) ∨ t = creationFailedText) := by
  obtain ⟨amt, minOut, uri, h1, h2, hu, hne, hex⟩ := reach_phase1 a e hreach
  rw [hex]
  rcases hfail with ⟨m, hm⟩ | ⟨hok, m, hm⟩ | ⟨hok, hm⟩
  · exact ⟨by simp [phase1Part, hm, isBuyCall, ipfsCallOf],
      launchErrorText m, by simp [phase1Part, hm], Or.inl ⟨m, rfl⟩⟩
  · exact ⟨by simp [phase1Part, hok, hm, isBuyCall, ipfsCallOf],
      launchErrorText m, by simp [phase1Part, hok, hm], Or.inl ⟨m, rfl⟩⟩
  · exact ⟨by simp [phase1Part, hok, hm, isBuyCall, ipfsCallOf],
      creationFailedText, by simp [phase1Part, hok, hm], Or.inr rfl⟩

/-- Witness for C3: creation submission confirms false while a positive buy was
requested; no buy collaborator appears in the trace and the single item is the
creation-failed error. -/
theorem phase1_failure_no_buy_witness :
    (((execute
      ⟨some "Foo", some "FOO", some "desc", none, none, none, some "img",
        .num 1, .num 0⟩
      ⟨some "KP", .ok (), "Mint", "Payer", .ok "uri", .ok (), .ok false,
        .ok "Pool", .ok (), .ok true⟩).2.all fun c => !isBuyCall c) = true ∧
    ∃ t, (execute
      ⟨some "Foo", some "FOO", some "desc", none, none, none, some "img",
        .num 1, .num 0⟩
      ⟨some "KP", .ok (), "Mint", "Payer", .ok "uri", .ok (), .ok false,
        .ok "Pool", .ok (), .ok true⟩).1 = .ok [.textContent t] ∧
      ((∃ m, t = launchErrorText m) ∨ t = creationFailedText)) :=
  phase1_failure_no_buy _ _ (by decide) (Or.inr (Or.inr ⟨rfl, rfl⟩))

/-- C4: when `initial_buy_amount` is absent or coerces to the falsy value 0 —
absent and falsy raw values coerce to 0, and a truthy value such as the string
0 may also coerce to 0 — the buy collaborators are never invoked and the
returned report carries no buy-status line (it is one of the error texts or
exactly the launch-detail lines); when the coerced amount is positive and
Phase 1 succeeds — creation invoked and confirmed, and the dependent addresses
derived — `create_buy_tx` is invoked exactly once, strictly after the creation
submission, optionally followed by the single buy submission. -/
theorem buy_gating (a : Arguments) (e : Env) :
    (pyFloat a.initial_buy_amount = .ok 0 →
      ((execute a e).2.all fun c => !isBuyCall c) = true ∧
      ∀ t, (execute a e).1 = .ok [.textContent t] →
        isErrorText t ∨
          ∃ uri p, e.prepare_ipfs = .ok uri ∧ e.derive_pdas = .ok p ∧
            t = String.intercalate "\n"
              (creationLines (a.name.getD "") (a.symbol.getD "") e.mintPubkey p uri
                (a.image_url.getD "") e.payerPubkey)) ∧
    (∀ amt p, pyFloat a.initial_buy_amount = .ok amt → 0 < amt →
      ((execute a e).2.any isCreateTokenCall) = true →
      e.create_token = .ok () → e.send_and_confirm_create = .ok true →
      e.derive_pdas = .ok p →
      ∃ minOut pre,
        pyFloat a.minimum_token_out = .ok minOut ∧
        (pre.all fun c => !isBuyCall c) = true ∧
        Call.send_and_confirm_create ∈ pre ∧
        ((execute a e).2 = pre ++ [Call.create_buy_tx amt minOut] ∨
          (execute a e).2 = pre ++ [Call.create_buy_tx amt minOut,
            .send_and_confirm_buy])) := by
  constructor
  · intro hz
    constructor
    · rw [List.all_eq_true]
      intro c hc
      cases c with
      | create_buy_tx x y =>
          obtain ⟨hx, hfx, _⟩ := (buy_call_inversion a e).1 x y hc
          rw [hz] at hfx
          have hx0 : (0 : ℚ) = x := Except.ok.inj hfx
          rw [← hx0] at hx
          exact absurd hx (lt_irrefl 0)
      | send_and_confirm_buy =>
          obtain ⟨x, hx, hfx, _⟩ := (buy_call_inversion a e).2 hc
          rw [hz] at hfx
          have hx0 : (0 : ℚ) = x := Except.ok.inj hfx
          rw [← hx0] at hx
          exact absurd hx (lt_irrefl 0)
      | prepare_ipfs n s d tw te w i => simp [isBuyCall]
      | create_token n s u => simp [isBuyCall]
      | send_and_confirm_create => simp [isBuyCall]
      | derive_pdas => simp [isBuyCall]
    · intro t ht
      rcases result_classified a e with ⟨m, hm, _⟩ | ⟨t', ht', hcls⟩
      · rw [ht] at hm
        exact absurd hm (by simp)
      · rw [ht] at ht'
        have htt : t = t' := by
          have h := Except.ok.inj ht'
          simpa using h
        subst htt
        rcases hcls with herr | ⟨uri, p, tail, hu, hp, htext, htail⟩
        · exact Or.inl herr
        · rcases htail with rfl | ⟨amt, hfa, hpos, _⟩
          · refine Or.inr ⟨uri, p, hu, hp, ?_⟩
            rw [htext]
            simp
          · rw [hz] at hfa
            have : (0 : ℚ) = amt := Except.ok.inj hfa
            rw [← this] at hpos
            exact absurd hpos (lt_irrefl 0)
  · intro amt p hamt hpos hreach hct hcs hpd
    obtain ⟨amt', minOut, uri, h1, h2, hu, hne, hex⟩ := reach_phase1 a e hreach
    rw [hamt] at h1
    have hae : amt = amt' := Except.ok.inj h1
    subst hae
    refine ⟨minOut, [ipfsCallOf a,
      .create_token (a.name.getD "") (a.symbol.getD "") uri,
      .send_and_confirm_create, .derive_pdas], h2, ?_, ?_, ?_⟩
    · simp [isBuyCall, ipfsCallOf]
    · simp
    · rw [hex, phase1Part_success a e amt minOut uri p hct hcs hpd]
      exact phase2Part_snd_pos e amt minOut _ _ hpos

/-- Arguments for the C4 witness, a truthy requested amount (such as the
string 0) that coerces to the falsy value 0. -/
def wArgsC4a : Arguments :=
  ⟨some "Foo", some "FOO", some "desc", none, none, none, some "img",
    .num 0, .absent⟩

/-- Arguments for the C4 witness, positive requested amount. -/
def wArgsC4b : Arguments :=
  ⟨some "Foo", some "FOO", some "desc", none, none, none, some "img",
    .num 2, .num 3⟩

/-- Environment for the C4 witness: everything succeeds. -/
def wEnvC4 : Env :=
  ⟨some "KP", .ok (), "Mint", "Payer", .ok "uri", .ok (), .ok true,
    .ok "Pool", .ok (), .ok true⟩

/-- Witness for C4, both parts: with a truthy requested amount coercing to
the falsy value 0, no buy collaborator is invoked and any returned report is an error text or the plain
launch-detail lines; with a positive requested amount and Phase 1 succeeding,
the trace ends with the single buy invocation after the creation
submission. -/
theorem buy_gating_witness :
    (((execute wArgsC4a wEnvC4).2.all fun c => !isBuyCall c) = true ∧
      ∀ t, (execute wArgsC4a wEnvC4).1 = .ok [.textContent t] →
        isErrorText t ∨
          ∃ uri p, wEnvC4.prepare_ipfs = .ok uri ∧ wEnvC4.derive_pdas = .ok p ∧
            t = String.intercalate "\n"
              (creationLines (wArgsC4a.name.getD "") (wArgsC4a.symbol.getD "")
                wEnvC4.mintPubkey p uri (wArgsC4a.image_url.getD "")
                wEnvC4.payerPubkey)) ∧
    ∃ minOut pre,
      pyFloat wArgsC4b.minimum_token_out = .ok minOut ∧
      (pre.all fun c => !isBuyCall c) = true ∧
      Call.send_and_confirm_create ∈ pre ∧
      ((execute wArgsC4b wEnvC4).2 = pre ++ [Call.create_buy_tx 2 minOut] ∨
        (execute wArgsC4b wEnvC4).2 =
          pre ++ [Call.create_buy_tx 2 minOut, .send_and_confirm_buy]) :=
  ⟨(buy_gating wArgsC4a wEnvC4).1 rfl,
    (buy_gating wArgsC4b wEnvC4).2 2 "Pool" rfl (by norm_num) (by decide)
      rfl rfl rfl⟩

/-- C5: with a positive coerced `initial_buy_amount` and Phase 1 succeeded
(creation invoked and confirmed, addresses derived), any buy failure is
non-fatal: the result is still a normal single text item carrying the full
launch-detail lines, with a blank line and then the buy-failure line appended —
the exception text variant when `create_buy_tx` or the buy submission raised,
and the plain variant when the submission completed reporting non-success. -/
theorem buy_failure_nonfatal (a : Arguments) (e : Env) (amt : ℚ) (p : String)
    (hreach : ((execute a e).2.any isCreateTokenCall) = true)
    (hamt : pyFloat a.initial_buy_amount = .ok amt) (hpos : 0 < amt)
    (hct : e.create_token = .ok ()) (hcs : e.send_and_confirm_create = .ok true)
    (hpd : e.derive_pdas = .ok p) (hfail : buyFails e) :
    ∃ uri, e.prepare_ipfs = .ok uri ∧
      ∃ tail, (execute a e).1 = .ok [.textContent (String.intercalate "\n"
          (creationLines (a.name.getD "") (a.symbol.getD "") e.mintPubkey p uri
            (a.image_url.getD "") e.payerPubkey ++ ["", tail]))] ∧
        ((∃ m, (e.create_buy_tx = .error m ∨
            (e.create_buy_tx = .ok () ∧ e.send_and_confirm_buy = .error m)) ∧
          tail = buyFailedExcText m) ∨
         (e.create_buy_tx = .ok () ∧ e.send_and_confirm_buy = .ok false ∧
          tail = buyFailedPlainText)) := by
  obtain ⟨amt', minOut, uri, h1, h2, hu, hne, hex⟩ := reach_phase1 a e hreach
  rw [hamt] at h1
  have hae : amt = amt' := Except.ok.inj h1
  subst hae
  refine ⟨uri, hu, ?_⟩
  rw [hex, phase1Part_success a e amt minOut uri p hct hcs hpd, phase2Part_fst]
  rcases hfail with ⟨m, hm⟩ | ⟨hok, m, hm⟩ | ⟨hok, hm⟩
  · refine ⟨buyFailedExcText m, ?_, Or.inl ⟨m, Or.inl hm, rfl⟩⟩
    have hsec : buyStatusSection amt e = ["", buyFailedExcText m] := by
      unfold buyStatusSection
      rw [if_pos hpos, hm]
    rw [hsec]
  · refine ⟨buyFailedExcText m, ?_, Or.inl ⟨m, Or.inr ⟨hok, hm⟩, rfl⟩⟩
    have hsec : buyStatusSection amt e = ["", buyFailedExcText m] := by
      unfold buyStatusSection
      rw [if_pos hpos, hok, hm]
    rw [hsec]
  · refine ⟨buyFailedPlainText, ?_, Or.inr ⟨hok, hm, rfl⟩⟩
    have hsec : buyStatusSection amt e = ["", buyFailedPlainText] := by
      unfold buyStatusSection
      rw [if_pos hpos, hok, hm]
      simp
    rw [hsec]

/-- Arguments for the C5 witness. -/
def wArgsC5 : Arguments :=
  ⟨some "Foo", some "FOO", some "desc", none, none, none, some "img",
    .num 1, .num 0⟩

/-- Environment for the C5 witness: creation succeeds, the buy raises. -/
def wEnvC5 : Env :=
  ⟨some "KP", .ok (), "Mint", "Payer", .ok "uri", .ok (), .ok true,
    .ok "Pool", .error "slippage", .ok true⟩

/-- Witness for C5: creation succeeds and `create_buy_tx` raises; the result is
still a creation-success report with the exception buy-failure line. -/
theorem buy_failure_nonfatal_witness :
    ∃ uri, wEnvC5.prepare_ipfs = .ok uri ∧
      ∃ tail, (execute wArgsC5 wEnvC5).1 = .ok [.textContent (String.intercalate "\n"
          (creationLines (wArgsC5.name.getD "") (wArgsC5.symbol.getD "")
            wEnvC5.mintPubkey "Pool" uri (wArgsC5.image_url.getD "")
            wEnvC5.payerPubkey ++ ["", tail]))] ∧
        ((∃ m, (wEnvC5.create_buy_tx = .error m ∨
            (wEnvC5.create_buy_tx = .ok () ∧
              wEnvC5.send_and_confirm_buy = .error m)) ∧
          tail = buyFailedExcText m) ∨
         (wEnvC5.create_buy_tx = .ok () ∧
          wEnvC5.send_and_confirm_buy = .ok false ∧
          tail = buyFailedPlainText)) :=
  buy_failure_nonfatal wArgsC5 wEnvC5 1 "Pool" (by decide) rfl (by norm_num)
    rfl rfl rfl (Or.inl ⟨"slippage", rfl⟩)

/-- C6 (amended): the amount fields are coerced to numeric with missing or
falsy input becoming exactly 0, but no clamping to ≥ 0 is applied.  Whenever
the buy collaborator is invoked, its amount-in is the coerced
`initial_buy_amount` and is positive — so a negative supplied amount-in never
reaches it, because the buy is gated on positivity — while its
minimum-amount-out is the coerced `minimum_token_out` passed through
unchanged, so a negative supplied `minimum_token_out` does reach the
collaborator (see the counterexample). -/
theorem amount_coercion_and_buy_gate (a : Arguments) (e : Env) :
    (∀ n : NumArg, (n = .absent ∨ n = .falsy) → pyFloat n = .ok 0) ∧
    ∀ x y, Call.create_buy_tx x y ∈ (execute a e).2 →
      0 < x ∧ pyFloat a.initial_buy_amount = .ok x ∧
        pyFloat a.minimum_token_out = .ok y := by
  refine ⟨?_, (buy_call_inversion a e).1⟩
  rintro n (rfl | rfl) <;> rfl

/-- Witness for C6 at a concrete run reaching the buy: the coerced amounts
passed to `create_buy_tx` are exactly the supplied ones. -/
theorem amount_coercion_and_buy_gate_witness :
    0 < (1 : ℚ) ∧
    pyFloat (NumArg.num 1) = .ok 1 ∧ pyFloat (NumArg.num (-5)) = .ok (-5) :=
  (amount_coercion_and_buy_gate
    ⟨some "Foo", some "FOO", some "desc", none, none, none, some "img",
      .num 1, .num (-5)⟩
    ⟨some "KP", .ok (), "Mint", "Payer", .ok "uri", .ok (), .ok true,
      .ok "Pool", .ok (), .ok true⟩).2 1 (-5) (by decide)

/-- C6 counterexample: a negative supplied `minimum_token_out` reaches
`create_buy_tx` as a negative minimum-amount-out — no clamping to ≥ 0
occurs. -/
theorem negative_minimum_reaches_buy_collaborator :
    Call.create_buy_tx 2 (-3) ∈
      (execute
        ⟨some "Bar", some "BAR", some "dd", none, none, none, some "im2",
          .num 2, .num (-3)⟩
        ⟨some "KP2", .ok (), "Mint2", "Payer2", .ok "uri2", .ok (), .ok true,
          .ok "Pool2", .ok (), .ok true⟩).2 := by decide

/-- C7 (amended): a required field consisting only of whitespace is NOT
treated as missing: the validation only rejects an absent or empty-string
field (Python falsiness), so whitespace-only values pass validation and
execution proceeds — here to the keypair check, whose error text differs from
the validation error text.  The claim as stated is refuted by the
counterexample below. -/
theorem whitespace_fields_pass_validation (a : Arguments) (e : Env)
    (h1 : ∃ q, pyFloat a.initial_buy_amount = .ok q)
    (h2 : ∃ q, pyFloat a.minimum_token_out = .ok q)
    (hn : pyFalsyStr a.name = false) (hs : pyFalsyStr a.symbol = false)
    (hd : pyFalsyStr a.description = false) (hi : pyFalsyStr a.image_url = false)
    (hkp : pyFalsyStr e.keypair = true) :
    execute a e = (.ok [.textContent noKeypairText], []) ∧
    noKeypairText ≠ validationErrorText := by
  obtain ⟨q1, hq1⟩ := h1
  obtain ⟨q2, hq2⟩ := h2
  exact ⟨by simp [execute, hq1, hq2, hn, hs, hd, hi, hkp], by decide⟩

/-- Witness for C7: all four required fields are a single space; validation
passes and the run reaches the keypair check. -/
theorem whitespace_fields_pass_validation_witness :
    execute
      ⟨some " ", some " ", some " ", none, none, none, some " ",
        .absent, .absent⟩
      ⟨none, .ok (), "Mint", "Payer", .ok "uri", .ok (), .ok true,
        .ok "Pool", .ok (), .ok true⟩ =
      (.ok [.textContent noKeypairText], []) ∧
    noKeypairText ≠ validationErrorText :=
  whitespace_fields_pass_validation _ _ ⟨0, rfl⟩ ⟨0, rfl⟩ rfl rfl rfl rfl rfl

/-- C7 counterexample: with the name a single space the run passes validation
and reports the missing keypair, while with the name absent the same
environment yields the validation error — a whitespace-only required field is
not treated as absent or empty. -/
theorem whitespace_name_not_treated_missing :
    (execute
      ⟨some " ", some "FOO", some "dsc", none, none, none, some "pic",
        .absent, .absent⟩
      ⟨none, .ok (), "M", "P", .ok "u", .ok (), .ok true, .ok "Q",
        .ok (), .ok true⟩).1 = .ok [.textContent noKeypairText] ∧
    (execute
      ⟨none, some "FOO", some "dsc", none, none, none, some "pic",
        .absent, .absent⟩
      ⟨none, .ok (), "M", "P", .ok "u", .ok (), .ok true, .ok "Q",
        .ok (), .ok true⟩).1 = .ok [.textContent validationErrorText] ∧
    noKeypairText ≠ validationErrorText :=
  ⟨rfl, rfl, by decide⟩

/-- C8: whenever Phase 1 was invoked and succeeded (creation confirmed,
addresses derived), the report is the single text item joining, in exactly
this order: the header line with name and symbol, a blank line, the mint
address, the derived pool-state address, the metadata URI, the image
reference, a blank line, the funding identity — followed, only when the
coerced requested amount is positive, by a blank line and the buy-status line,
where a successful buy records exactly the requested spend amount (see
`creationLines` and `buyStatusSection`). -/
theorem report_line_order (a : Arguments) (e : Env) (amt : ℚ) (p : String)
    (hreach : ((execute a e).2.any isCreateTokenCall) = true)
    (hamt : pyFloat a.initial_buy_amount = .ok amt)
    (hct : e.create_token = .ok ()) (hcs : e.send_and_confirm_create = .ok true)
    (hpd : e.derive_pdas = .ok p) :
    ∃ uri, e.prepare_ipfs = .ok uri ∧
      (execute a e).1 = .ok [.textContent (String.intercalate "\n"
        (creationLines (a.name.getD "") (a.symbol.getD "") e.mintPubkey p uri
          (a.image_url.getD "") e.payerPubkey ++ buyStatusSection amt e))] := by
  obtain ⟨amt', minOut, uri, h1, h2, hu, hne, hex⟩ := reach_phase1 a e hreach
  rw [hamt] at h1
  have hae : amt = amt' := Except.ok.inj h1
  subst hae
  exact ⟨uri, hu, by
    rw [hex, phase1Part_success a e amt minOut uri p hct hcs hpd, phase2Part_fst]⟩

/-- Arguments for the C8 witness. -/
def wArgsC8 : Arguments :=
  ⟨some "Tok", some "TOK", some "dsc", none, none, none, some "pic",
    .num 2, .num 1⟩

/-- Environment for the C8 witness: everything succeeds, including the buy. -/
def wEnvC8 : Env :=
  ⟨some "KP", .ok (), "Mint8", "Payer8", .ok "uri8", .ok (), .ok true,
    .ok "Pool8", .ok (), .ok true⟩

/-- Witness for C8: a fully successful run produces exactly the ordered lines
with the successful buy-status tail recording the requested spend amount. -/
theorem report_line_order_witness :
    ∃ uri, wEnvC8.prepare_ipfs = .ok uri ∧
      (execute wArgsC8 wEnvC8).1 = .ok [.textContent (String.intercalate "\n"
        (creationLines (wArgsC8.name.getD "") (wArgsC8.symbol.getD "")
          wEnvC8.mintPubkey "Pool8" uri (wArgsC8.image_url.getD "")
          wEnvC8.payerPubkey ++ buyStatusSection 2 wEnvC8))] :=
  report_line_order wArgsC8 wEnvC8 2 "Pool8" (by decide) rfl rfl rfl rfl

end BonkMcp
